import Mathlib

set_option maxRecDepth 10000

/-! Shallow embedding of the repository's game engines.

The repository contains two `GameEngine` variants: the richer "V4" engine
(object-pooled particles, continuous player x, screen shake/flash) and a
simpler lane-discrete engine.  The richer engine is embedded in full in the
root namespace; the simpler engine's pose handling (the part the claims
touch) is embedded under `Simple`.

JavaScript `Math.random()` draws and the transcendental `Math.cos` /
`Math.sin` are determinized through an explicit oracle `Env`: the engine
state carries a cursor `rix`, and every `Math.random()` call in the source
becomes `env.rand rix` with the cursor advanced, in source order.  Callback
invocations (`onScoreChange`, `onGameEnd`) are modelled as an explicit list
of emitted `Event`s returned alongside the new state, in invocation order.
Fractional numbers are embedded as rationals (`ℚ`); the integer-valued
counters `score`, `level`, `combo` and the timers only ever receive
natural-number values in the source and are embedded as `ℕ`, while `life`
is embedded as `ℤ` because `this.life--` can in principle drive it below
zero. -/

/-- Oracle for the host environment's nondeterminism: `rand n` is the value
returned by the `n`-th `Math.random()` call of the session, and `mcos` /
`msin` stand for `Math.cos` / `Math.sin`. -/
structure Env where
  rand : ℕ → ℚ
  mcos : ℚ → ℚ
  msin : ℚ → ℚ

/-- The exact rational value of the IEEE-754 double constant `Math.PI`. -/
def jsPI : ℚ := 884279719003555 / 281474976710656

/-- A pooled visual-effect particle (class `Particle` of the richer engine). -/
structure Particle where
  active : Bool
  x : ℚ
  y : ℚ
  vx : ℚ
  vy : ℚ
  life : ℚ
  color : String
  size : ℚ
  deriving DecidableEq

/-- The particle state produced by the `Particle` constructor. -/
def mkParticle : Particle :=
  { active := false, x := 0, y := 0, vx := 0, vy := 0, life := 0, color := "#FFF", size := 0 }

/-- Method `Particle.spawn(x, y, color)`: reactivates the slot in place with a
randomized angle, speed and size.  Consumes three `Math.random()` draws
starting at cursor `rix`; returns the updated particle and the new cursor. -/
def Particle.spawn (p : Particle) (x y : ℚ) (color : String) (env : Env) (rix : ℕ) :
    Particle × ℕ :=
  let angle : ℚ := env.rand rix * jsPI * 2
  let speed : ℚ := env.rand (rix + 1) * 5 + 2
  ({ p with
      active := true, x := x, y := y,
      vx := env.mcos angle * speed, vy := env.msin angle * speed,
      life := 1, color := color, size := env.rand (rix + 2) * 6 + 4 }, rix + 3)

/-- Method `Particle.update()`: advances physics (gravity 0.2, life decay
0.03, size shrink factor 0.96) and deactivates the slot when life ≤ 0. -/
def Particle.update (p : Particle) : Particle :=
  if !p.active then p
  else
    let p1 := { p with x := p.x + p.vx, y := p.y + p.vy }
    let p2 := { p1 with vy := p1.vy + (1/5 : ℚ) }
    let p3 := { p2 with life := p2.life - (3/100 : ℚ), size := p2.size * (24/25 : ℚ) }
    if p3.life ≤ 0 then { p3 with active := false } else p3

/-- A falling item of the richer engine (object literal pushed by `spawnItem`). -/
structure Item where
  x : ℚ
  y : ℚ
  type : String
  score : ℕ
  icon : String
  color : String
  speed : ℚ
  angle : ℚ
  deriving DecidableEq

/-- An entry of the `types` table of `spawnItem` (id, score, color, icon). -/
structure ItemTypeSpec where
  id : String
  score : ℕ
  color : String
  icon : String
  deriving DecidableEq

/-- The expanded item list of the richer engine's `spawnItem`
(apple / grape / orange / diamond / bomb, copied verbatim). -/
def types : List ItemTypeSpec :=
  [⟨"apple", 100, "#FF4444", "üçé"⟩,
   ⟨"grape", 200, "#AA44FF", "üçá"⟩,
   ⟨"orange", 300, "#FFAA00", "üçä"⟩,
   ⟨"diamond", 1000, "#00FFFF", "üíé"⟩,
   ⟨"bomb", 0, "#666666", "üí£"⟩]

/-- A callback invocation observable by the UI layer:
`onScoreChange(score, life, level, combo)` or `onGameEnd(score, level)`. -/
inductive Event where
  | scoreChange : ℕ → ℤ → ℕ → ℕ → Event
  | gameEnd : ℕ → ℕ → Event
  deriving DecidableEq

/-- State of the richer ("V4") `GameEngine`.  The `canvas`/`ctx` references
are modelled by the canvas dimensions `canvasW`/`canvasH` (the only data the
logic reads from them); `rix` is the randomness cursor of the `Env` oracle. -/
structure GameEngine where
  state : String
  score : ℕ
  life : ℤ
  level : ℕ
  combo : ℕ
  maxCombo : ℕ
  items : List Item
  laneCount : ℕ
  playerLane : ℕ
  playerX : ℚ
  targetX : ℚ
  shakeTimer : ℕ
  flashTimer : ℕ
  baseSpeed : ℚ
  spawnTimer : ℕ
  spawnInterval : ℕ
  particles : List Particle
  canvasW : ℚ
  canvasH : ℚ
  rix : ℕ
  deriving DecidableEq

/-- The state built by the richer `GameEngine` constructor (pre-allocating a
pool of 100 particles). -/
def mkGameEngine : GameEngine :=
  { state := "READY", score := 0, life := 3, level := 1, combo := 0, maxCombo := 0,
    items := [], laneCount := 3, playerLane := 1, playerX := 0, targetX := 0,
    shakeTimer := 0, flashTimer := 0, baseSpeed := 6, spawnTimer := 0, spawnInterval := 45,
    particles := List.replicate 100 mkParticle, canvasW := 0, canvasH := 0, rix := 0 }

/-- Method `init(canvas)`: stores the canvas and centers the player. -/
def GameEngine.init (s : GameEngine) (w h : ℚ) : GameEngine :=
  { s with canvasW := w, canvasH := h, playerX := w / 2, targetX := w / 2 }

/-- Method `notifyUI()`: the `onScoreChange(score, life, level, combo)`
callback invocation, as an event. -/
def notifyUI (s : GameEngine) : Event :=
  Event.scoreChange s.score s.life s.level s.combo

/-- Method `start()` of the richer engine: resets
score/life/level/combo/items/baseSpeed, deactivates every pooled particle,
re-enters PLAYING and notifies the UI once. -/
def GameEngine.start (s : GameEngine) : GameEngine × List Event :=
  let s1 := { s with
    state := "PLAYING", score := 0, life := 3, level := 1, combo := 0,
    items := [], baseSpeed := 6,
    particles := s.particles.map fun p => { p with active := false } }
  (s1, [notifyUI s1])

/-- Method `gameOver()` of the richer engine: enters GAME_OVER and fires
`onGameEnd(score, level)`. -/
def GameEngine.gameOver (s : GameEngine) : GameEngine × List Event :=
  let s1 := { s with state := "GAME_OVER" }
  (s1, [Event.gameEnd s1.score s1.level])

/-- Method `setPose(poseLabel)` of the richer engine: exact (case-sensitive)
comparison against "Left" / "Center" / "Right", setting the continuous
target x; a no-op unless PLAYING. -/
def GameEngine.setPose (s : GameEngine) (poseLabel : String) : GameEngine :=
  if s.state ≠ "PLAYING" then s
  else
    let laneWidth : ℚ := s.canvasW / 3
    if poseLabel = "Left" then { s with targetX := laneWidth * (1/2 : ℚ) }
    else if poseLabel = "Center" then { s with targetX := laneWidth * (3/2 : ℚ) }
    else if poseLabel = "Right" then { s with targetX := laneWidth * (5/2 : ℚ) }
    else s

/-- The loop body of `spawnExplosion`, with the per-event spawn cap (the
literal 15 in the source) abstracted as `cap`: walks the pool, spawning each
inactive slot; after a spawn increments `count`, the loop breaks once
`count ≥ cap`.  Returns the updated pool and randomness cursor. -/
def spawnBurstAux (env : Env) (x y : ℚ) (color : String) (cap : ℕ) :
    List Particle → ℕ → ℕ → List Particle × ℕ
  | [], _, rix => ([], rix)
  | p :: ps, count, rix =>
    if p.active then
      let r := spawnBurstAux env x y color cap ps count rix
      (p :: r.1, r.2)
    else
      let pr := p.spawn x y color env rix
      if count + 1 ≥ cap then (pr.1 :: ps, pr.2)
      else
        let r := spawnBurstAux env x y color cap ps (count + 1) pr.2
        (pr.1 :: r.1, r.2)

/-- A particle-burst request of (up to) `m` particles: the `spawnExplosion`
loop run with spawn cap `m` from count 0. -/
def spawnBurst (env : Env) (x y : ℚ) (color : String) (m : ℕ)
    (ps : List Particle) (rix : ℕ) : List Particle × ℕ :=
  spawnBurstAux env x y color m ps 0 rix

/-- Method `spawnExplosion(x, y, color)` of the richer engine: spawns up to
15 particles into inactive pool slots. -/
def GameEngine.spawnExplosion (s : GameEngine) (env : Env) (x y : ℚ) (color : String) :
    GameEngine :=
  let pr := spawnBurst env x y color 15 s.particles s.rix
  { s with particles := pr.1, rix := pr.2 }

/-- Method `spawnItem()` of the richer engine: picks a uniformly random lane,
an item type from the cumulative-probability table (20% bomb, 10% diamond,
20% orange, 20% grape, else apple) and a jittered speed, and pushes the new
item at the top of the field.  Consumes three `Math.random()` draws. -/
def GameEngine.spawnItem (s : GameEngine) (env : Env) : GameEngine :=
  let lane : ℕ := (env.rand s.rix * 3).floor.toNat
  let laneWidth : ℚ := s.canvasW / 3
  let x : ℚ := (lane : ℚ) * laneWidth + laneWidth / 2
  let r : ℚ := env.rand (s.rix + 1)
  let dflt : ItemTypeSpec := ⟨"apple", 100, "#FF4444", "üçé"⟩
  let ty : ItemTypeSpec :=
    if r < (1/5 : ℚ) then types.getD 4 dflt
    else if r < (3/10 : ℚ) then types.getD 3 dflt
    else if r < (1/2 : ℚ) then types.getD 2 dflt
    else if r < (7/10 : ℚ) then types.getD 1 dflt
    else types.getD 0 dflt
  let speed : ℚ := s.baseSpeed + env.rand (s.rix + 2) * 2
  { s with
    items := s.items ++ [{ x := x, y := -60, type := ty.id, score := ty.score,
                           icon := ty.icon, color := ty.color, speed := speed, angle := 0 }],
    rix := s.rix + 3 }

/-- Method `resetCombo()` of the richer engine: zeroes the combo and notifies
the UI (the `combo > 5` branch of the source has an empty body). -/
def GameEngine.resetCombo (s : GameEngine) : GameEngine × List Event :=
  let s1 := { s with combo := 0 }
  (s1, [notifyUI s1])

/-- Method `handleCollision(item)` of the richer engine.  Bomb: decrement
life, reset combo, start the shake timer, spawn a grey burst.  Otherwise:
increment combo, add `item.score * (1 + ⌊combo/10⌋)` to the score, spawn a
colored burst, flash on diamond, and bump `baseSpeed` by 0.05 when
`score % 1000 < 200`.  Afterwards notify the UI and, if `life ≤ 0`, run
`gameOver()`. -/
def GameEngine.handleCollision (s : GameEngine) (env : Env) (item : Item) :
    GameEngine × List Event :=
  let br : GameEngine × List Event :=
    if item.type = "bomb" then
      let sA := { s with life := s.life - 1 }
      let rc := sA.resetCombo
      let sC := { rc.1 with shakeTimer := 20 }
      (sC.spawnExplosion env item.x item.y "#555", rc.2)
    else
      let sA := { s with combo := s.combo + 1 }
      let multiplier : ℕ := 1 + sA.combo / 10
      let sB := { sA with score := sA.score + item.score * multiplier }
      let sC := sB.spawnExplosion env item.x item.y item.color
      let sD := { sC with flashTimer := if item.type = "diamond" then 5 else sC.flashTimer }
      let sE := { sD with
        baseSpeed := if sD.score % 1000 < 200 then sD.baseSpeed + (1/20 : ℚ) else sD.baseSpeed }
      (sE, [])
  let evs := br.2 ++ [notifyUI br.1]
  if br.1.life ≤ 0 then (br.1.gameOver.1, evs ++ br.1.gameOver.2)
  else (br.1, evs)

/-- The item loop of the richer engine's `update()` (a back-to-front indexed
loop with in-place `splice`): items later in the array are processed first;
each item moves by its speed and rotates, then either collides (handled and
removed), falls past the bottom (removed, combo reset), or survives.
Returns the surviving items (order preserved), the engine state after all
handlers, and the emitted events in invocation order. -/
def updItems (env : Env) (playerY : ℚ) :
    List Item → GameEngine → List Item × GameEngine × List Event
  | [], s => ([], s, [])
  | it :: rest, s =>
    let r := updItems env playerY rest s
    let it1 := { it with y := it.y + it.speed, angle := it.angle + (1/20 : ℚ) }
    if |it1.y - playerY| < 50 ∧ |it1.x - r.2.1.playerX| < 50 then
      let hc := r.2.1.handleCollision env it1
      (r.1, hc.1, r.2.2 ++ hc.2)
    else if it1.y > r.2.1.canvasH then
      let rc := r.2.1.resetCombo
      (r.1, rc.1, r.2.2 ++ rc.2)
    else
      (it1 :: r.1, r.2.1, r.2.2)

/-- Method `update()` of the richer engine: no-op unless PLAYING; otherwise
move the player toward the target (factor 0.4), run the spawn timer, run the
item loop (movement, collision, miss), update every pooled particle, and
count down the shake and flash timers. -/
def GameEngine.update (s : GameEngine) (env : Env) : GameEngine × List Event :=
  if s.state ≠ "PLAYING" then (s, [])
  else
    let s1 := { s with playerX := s.playerX + (s.targetX - s.playerX) * (2/5 : ℚ) }
    let s2 := { s1 with spawnTimer := s1.spawnTimer + 1 }
    let s3 := if s2.spawnTimer > s2.spawnInterval then { s2.spawnItem env with spawnTimer := 0 }
              else s2
    let playerY : ℚ := s3.canvasH * (17/20 : ℚ)
    let r := updItems env playerY s3.items s3
    let s5 := { r.2.1 with items := r.1 }
    let s6 := { s5 with particles := s5.particles.map Particle.update }
    let s7 := { s6 with
      shakeTimer := if s6.shakeTimer > 0 then s6.shakeTimer - 1 else s6.shakeTimer,
      flashTimer := if s6.flashTimer > 0 then s6.flashTimer - 1 else s6.flashTimer }
    (s7, r.2.2)

namespace Simple

/-- Fragment of the simpler lane-discrete engine's state: the fields its
`setPose` reads or writes (the other fields of that class are untouched by
the claims). -/
structure GameEngine where
  state : String
  playerLane : ℕ
  deriving DecidableEq

/-- Method `setPose(poseLabel)` of the simpler engine: uppercases the label
(case-insensitive match) and stores the discrete lane index; a no-op unless
PLAYING and on unknown labels. -/
def GameEngine.setPose (t : GameEngine) (poseLabel : String) : GameEngine :=
  if t.state ≠ "PLAYING" then t
  else
    let label := poseLabel.toUpper
    if label = "LEFT" then { t with playerLane := 0 }
    else if label = "CENTER" then { t with playerLane := 1 }
    else if label = "RIGHT" then { t with playerLane := 2 }
    else t

/-- The player x position the simpler engine's `draw()` derives from the
lane index: `playerLane * laneWidth + laneWidth / 2` with `laneWidth = w/3`. -/
def playerDrawX (w : ℚ) (lane : ℕ) : ℚ :=
  (lane : ℚ) * (w / 3) + (w / 3) / 2

/-- Applies `setPose` once per element of a label stream and records the
`playerLane` after each application. -/
def laneSeq (t : GameEngine) : List String → List ℕ
  | [] => []
  | l :: ls =>
    let t1 := t.setPose l
    t1.playerLane :: laneSeq t1 ls

end Simple

/-- An externally triggerable operation of the richer engine: the host loop
calls `update()` and `draw()` each frame, the pose layer calls `setPose`,
and the UI calls `start()`.  `draw()` only paints onto the rendering context
and writes no engine field, so its state semantics is the identity. -/
inductive Op where
  | start : Op
  | update : Env → Op
  | setPose : String → Op
  | draw : Op

/-- Whether an operation is the `start()` call. -/
def Op.isStart : Op → Bool
  | .start => true
  | _ => false

/-- Runs one external operation, returning the new state and emitted events. -/
def applyOp : Op → GameEngine → GameEngine × List Event
  | .start, s => s.start
  | .update env, s => s.update env
  | .setPose l, s => (s.setPose l, [])
  | .draw, s => (s, [])

/-- Runs a sequence of external operations, concatenating emitted events. -/
def runOps : List Op → GameEngine → GameEngine × List Event
  | [], s => (s, [])
  | o :: os, s =>
    ((runOps os (applyOp o s).1).1, (applyOp o s).2 ++ (runOps os (applyOp o s).1).2)

/-- Number of active particles in a pool. -/
def activeCount (ps : List Particle) : ℕ := ps.countP fun p => p.active

/-- Number of inactive particles in a pool. -/
def inactiveCount (ps : List Particle) : ℕ := ps.countP fun p => !p.active

/-- Number of `onGameEnd` invocations in an event list. -/
def countGameEnd (evs : List Event) : ℕ :=
  evs.countP fun e => match e with
    | Event.gameEnd _ _ => true
    | _ => false

/-- The `level` argument an event reports to its listener. -/
def eventLevel : Event → ℕ
  | Event.scoreChange _ _ lv _ => lv
  | Event.gameEnd _ lv => lv

/-- Folds `handleCollision` over a list of items (a sequence of hits). -/
def runHits (env : Env) : List Item → GameEngine → GameEngine
  | [], s => s
  | it :: rest, s => runHits env rest (s.handleCollision env it).1

/-- The player x position after the smoothing step at the top of `update()`. -/
def movedX (s : GameEngine) : ℚ := s.playerX + (s.targetX - s.playerX) * (2/5 : ℚ)

/-- A concrete oracle for witnesses: every random draw is 0, cosine and sine
are the zero functions. -/
def env0 : Env := { rand := fun _ => 0, mcos := fun _ => 0, msin := fun _ => 0 }

/-- A freshly started engine on a 400×400 canvas (the repository's size). -/
def sP : GameEngine := ((mkGameEngine.init 400 400).start).1

/-- A constructed (never started) engine on a 400×400 canvas, in READY. -/
def sREADY : GameEngine := mkGameEngine.init 400 400

/-- A bomb item placed so that one movement step puts it exactly on the
player: after `y += speed` it is at (200, 340) = (player x, 0.85·h). -/
def bombItem : Item :=
  { x := 200, y := 334, type := "bomb", score := 0, icon := "üí£", color := "#666666",
    speed := 6, angle := 0 }

/-- An apple item placed like `bombItem`, colliding after one movement step. -/
def appleItem : Item :=
  { x := 200, y := 334, type := "apple", score := 100, icon := "üçé", color := "#FF4444",
    speed := 6, angle := 0 }

/-- An apple item that falls past the bottom of the 400-high canvas on its
next movement step without entering the collision window. -/
def missItem : Item :=
  { x := 200, y := 400, type := "apple", score := 100, icon := "üçé", color := "#FF4444",
    speed := 6, angle := 0 }

/-- A freshly started engine whose field holds four bombs that all collide
with the player on the next `update()`. -/
def sC1 : GameEngine := { sP with items := [bombItem, bombItem, bombItem, bombItem] }

/-- A freshly started engine with combo 7 and a single item about to be
missed (it leaves the field on the next `update()`). -/
def sC9 : GameEngine := { sP with combo := 7, items := [missItem] }

/-- A simpler-variant engine in PLAYING with the initial center lane. -/
def tP : Simple.GameEngine := { state := "PLAYING", playerLane := 1 }

/-- A start-free operation sequence used to instantiate trace theorems. -/
def opsC6 : List Op := [Op.update env0, Op.setPose "Left", Op.draw, Op.update env0]

/-! Helper lemmas: field preservation and pool-shape facts. -/

@[simp] theorem se_state (s : GameEngine) (env : Env) (x y : ℚ) (c : String) :
    (s.spawnExplosion env x y c).state = s.state := rfl

@[simp] theorem se_score (s : GameEngine) (env : Env) (x y : ℚ) (c : String) :
    (s.spawnExplosion env x y c).score = s.score := rfl

@[simp] theorem se_life (s : GameEngine) (env : Env) (x y : ℚ) (c : String) :
    (s.spawnExplosion env x y c).life = s.life := rfl

@[simp] theorem se_level (s : GameEngine) (env : Env) (x y : ℚ) (c : String) :
    (s.spawnExplosion env x y c).level = s.level := rfl

@[simp] theorem se_combo (s : GameEngine) (env : Env) (x y : ℚ) (c : String) :
    (s.spawnExplosion env x y c).combo = s.combo := rfl

@[simp] theorem se_items (s : GameEngine) (env : Env) (x y : ℚ) (c : String) :
    (s.spawnExplosion env x y c).items = s.items := rfl

@[simp] theorem se_playerX (s : GameEngine) (env : Env) (x y : ℚ) (c : String) :
    (s.spawnExplosion env x y c).playerX = s.playerX := rfl

@[simp] theorem se_canvasH (s : GameEngine) (env : Env) (x y : ℚ) (c : String) :
    (s.spawnExplosion env x y c).canvasH = s.canvasH := rfl

@[simp] theorem se_baseSpeed (s : GameEngine) (env : Env) (x y : ℚ) (c : String) :
    (s.spawnExplosion env x y c).baseSpeed = s.baseSpeed := rfl

@[simp] theorem se_flashTimer (s : GameEngine) (env : Env) (x y : ℚ) (c : String) :
    (s.spawnExplosion env x y c).flashTimer = s.flashTimer := rfl

@[simp] theorem rc_fst (s : GameEngine) :
    (s.resetCombo).1 = { s with combo := 0 } := rfl

@[simp] theorem rc_snd (s : GameEngine) :
    (s.resetCombo).2 = [Event.scoreChange s.score s.life s.level 0] := rfl

@[simp] theorem go_fst (s : GameEngine) :
    (s.gameOver).1 = { s with state := "GAME_OVER" } := rfl

@[simp] theorem go_snd (s : GameEngine) :
    (s.gameOver).2 = [Event.gameEnd s.score s.level] := rfl

@[simp] theorem spawn_active (p : Particle) (x y : ℚ) (c : String) (env : Env) (rix : ℕ) :
    (p.spawn x y c env rix).1.active = true := rfl

theorem spawnBurstAux_length (env : Env) (x y : ℚ) (c : String) (cap : ℕ) :
    ∀ (ps : List Particle) (count rix : ℕ),
      (spawnBurstAux env x y c cap ps count rix).1.length = ps.length := by
  intro ps
  induction ps with
  | nil => intro count rix; rfl
  | cons p t ih =>
    intro count rix
    unfold spawnBurstAux
    by_cases hp : p.active
    · simp [hp, ih]
    · simp only [hp, if_false, Bool.false_eq_true]
      by_cases hcnt : count + 1 ≥ cap
      · simp [hcnt]
      · simp [hcnt, ih]

@[simp] theorem se_particles_length (s : GameEngine) (env : Env) (x y : ℚ) (c : String) :
    (s.spawnExplosion env x y c).particles.length = s.particles.length := by
  unfold GameEngine.spawnExplosion spawnBurst
  simp [spawnBurstAux_length]

@[simp] theorem activeCount_nil : activeCount [] = 0 := rfl

@[simp] theorem inactiveCount_nil : inactiveCount [] = 0 := rfl

@[simp] theorem activeCount_cons (p : Particle) (t : List Particle) :
    activeCount (p :: t) = (if p.active then 1 else 0) + activeCount t := by
  simp [activeCount, List.countP_cons, Nat.add_comm]

@[simp] theorem inactiveCount_cons (p : Particle) (t : List Particle) :
    inactiveCount (p :: t) = (if p.active then 0 else 1) + inactiveCount t := by
  by_cases hp : p.active <;> simp [inactiveCount, List.countP_cons, hp, Nat.add_comm]

theorem spawnBurstAux_activeCount (env : Env) (x y : ℚ) (c : String) (cap : ℕ) :
    ∀ (ps : List Particle) (count rix : ℕ), count < cap →
      activeCount (spawnBurstAux env x y c cap ps count rix).1 =
        activeCount ps + min (cap - count) (inactiveCount ps) := by
  intro ps
  induction ps with
  | nil => intro count rix _; simp [spawnBurstAux]
  | cons p t ih =>
    intro count rix hlt
    unfold spawnBurstAux
    by_cases hp : p.active
    · simp [hp, ih count rix hlt]
      omega
    · by_cases hcnt : count + 1 ≥ cap
      · have hcc : cap - count = 1 := by omega
        simp [hp, hcnt, hcc]
        omega
      · have hlt2 : count + 1 < cap := by omega
        simp [hp, hcnt, ih (count + 1) ((p.spawn x y c env rix).2) hlt2]
        omega

theorem deactivate_map_idem (ps : List Particle) :
    (ps.map fun p => { p with active := false }).map (fun p => { p with active := false })
      = ps.map fun p => { p with active := false } := by
  induction ps with
  | nil => rfl
  | cons p t ih => simp only [List.map_cons, ih]

theorem hc_life (s : GameEngine) (env : Env) (it : Item) :
    (s.handleCollision env it).1.life = if it.type = "bomb" then s.life - 1 else s.life := by
  by_cases hb : it.type = "bomb"
  · by_cases hl : s.life ≤ 1 <;> simp [GameEngine.handleCollision, hb, hl]
  · by_cases hl : s.life ≤ 0 <;> simp [GameEngine.handleCollision, hb, hl]

theorem hc_combo (s : GameEngine) (env : Env) (it : Item) :
    (s.handleCollision env it).1.combo = if it.type = "bomb" then 0 else s.combo + 1 := by
  by_cases hb : it.type = "bomb"
  · by_cases hl : s.life ≤ 1 <;> simp [GameEngine.handleCollision, hb, hl]
  · by_cases hl : s.life ≤ 0 <;> simp [GameEngine.handleCollision, hb, hl]

theorem hc_score (s : GameEngine) (env : Env) (it : Item) :
    (s.handleCollision env it).1.score =
      if it.type = "bomb" then s.score
      else s.score + it.score * (1 + (s.combo + 1) / 10) := by
  by_cases hb : it.type = "bomb"
  · by_cases hl : s.life ≤ 1 <;> simp [GameEngine.handleCollision, hb, hl]
  · by_cases hl : s.life ≤ 0 <;> simp [GameEngine.handleCollision, hb, hl]

theorem hc_level (s : GameEngine) (env : Env) (it : Item) :
    (s.handleCollision env it).1.level = s.level := by
  by_cases hb : it.type = "bomb"
  · by_cases hl : s.life ≤ 1 <;> simp [GameEngine.handleCollision, hb, hl]
  · by_cases hl : s.life ≤ 0 <;> simp [GameEngine.handleCollision, hb, hl]

theorem hc_playerX (s : GameEngine) (env : Env) (it : Item) :
    (s.handleCollision env it).1.playerX = s.playerX := by
  by_cases hb : it.type = "bomb"
  · by_cases hl : s.life ≤ 1 <;> simp [GameEngine.handleCollision, hb, hl]
  · by_cases hl : s.life ≤ 0 <;> simp [GameEngine.handleCollision, hb, hl]

theorem hc_canvasH (s : GameEngine) (env : Env) (it : Item) :
    (s.handleCollision env it).1.canvasH = s.canvasH := by
  by_cases hb : it.type = "bomb"
  · by_cases hl : s.life ≤ 1 <;> simp [GameEngine.handleCollision, hb, hl]
  · by_cases hl : s.life ≤ 0 <;> simp [GameEngine.handleCollision, hb, hl]

theorem hc_particles_length (s : GameEngine) (env : Env) (it : Item) :
    (s.handleCollision env it).1.particles.length = s.particles.length := by
  by_cases hb : it.type = "bomb"
  · by_cases hl : s.life ≤ 1 <;> simp [GameEngine.handleCollision, hb, hl]
  · by_cases hl : s.life ≤ 0 <;> simp [GameEngine.handleCollision, hb, hl]

theorem hc_state (s : GameEngine) (env : Env) (it : Item) :
    (s.handleCollision env it).1.state =
      if (if it.type = "bomb" then s.life - 1 else s.life) ≤ 0 then "GAME_OVER"
      else s.state := by
  by_cases hb : it.type = "bomb"
  · by_cases hl : s.life ≤ 1 <;> simp [GameEngine.handleCollision, hb, hl]
  · by_cases hl : s.life ≤ 0 <;> simp [GameEngine.handleCollision, hb, hl]

theorem hc_baseSpeed (s : GameEngine) (env : Env) (it : Item) :
    (s.handleCollision env it).1.baseSpeed =
      if it.type = "bomb" then s.baseSpeed
      else if (s.score + it.score * (1 + (s.combo + 1) / 10)) % 1000 < 200 then
        s.baseSpeed + (1/20 : ℚ)
      else s.baseSpeed := by
  by_cases hb : it.type = "bomb"
  · by_cases hl : s.life ≤ 1 <;> simp [GameEngine.handleCollision, hb, hl]
  · by_cases hl : s.life ≤ 0 <;> simp [GameEngine.handleCollision, hb, hl]

theorem hc_countGameEnd (s : GameEngine) (env : Env) (it : Item) :
    countGameEnd (s.handleCollision env it).2 =
      if (if it.type = "bomb" then s.life - 1 else s.life) ≤ 0 then 1 else 0 := by
  by_cases hb : it.type = "bomb"
  · by_cases hl : s.life ≤ 1 <;>
      simp [GameEngine.handleCollision, hb, hl, countGameEnd, notifyUI]
  · by_cases hl : s.life ≤ 0 <;>
      simp [GameEngine.handleCollision, hb, hl, countGameEnd, notifyUI]

theorem hc_score_le (s : GameEngine) (env : Env) (it : Item) :
    s.score ≤ (s.handleCollision env it).1.score := by
  rw [hc_score]; split <;> simp

theorem hc_events_level (s : GameEngine) (env : Env) (it : Item) :
    ∀ e ∈ (s.handleCollision env it).2, eventLevel e = s.level := by
  by_cases hb : it.type = "bomb"
  · by_cases hl : s.life ≤ 1 <;>
      simp [GameEngine.handleCollision, hb, hl, notifyUI, eventLevel]
  · by_cases hl : s.life ≤ 0 <;>
      simp [GameEngine.handleCollision, hb, hl, notifyUI, eventLevel]

@[simp] theorem si_state (s : GameEngine) (env : Env) :
    (s.spawnItem env).state = s.state := rfl

@[simp] theorem si_score (s : GameEngine) (env : Env) :
    (s.spawnItem env).score = s.score := rfl

@[simp] theorem si_life (s : GameEngine) (env : Env) :
    (s.spawnItem env).life = s.life := rfl

@[simp] theorem si_level (s : GameEngine) (env : Env) :
    (s.spawnItem env).level = s.level := rfl

@[simp] theorem si_combo (s : GameEngine) (env : Env) :
    (s.spawnItem env).combo = s.combo := rfl

@[simp] theorem si_particles (s : GameEngine) (env : Env) :
    (s.spawnItem env).particles = s.particles := rfl

@[simp] theorem si_canvasH (s : GameEngine) (env : Env) :
    (s.spawnItem env).canvasH = s.canvasH := rfl

@[simp] theorem si_playerX (s : GameEngine) (env : Env) :
    (s.spawnItem env).playerX = s.playerX := rfl

theorem updItems_level (env : Env) (py : ℚ) :
    ∀ (its : List Item) (s : GameEngine),
      (updItems env py its s).2.1.level = s.level := by
  intro its
  induction its with
  | nil => intro s; rfl
  | cons it rest ih =>
    intro s
    simp only [updItems]
    split
    · simpa [hc_level] using ih s
    · split
      · simpa using ih s
      · simpa using ih s

theorem updItems_events_level (env : Env) (py : ℚ) :
    ∀ (its : List Item) (s : GameEngine),
      ∀ e ∈ (updItems env py its s).2.2, eventLevel e = s.level := by
  intro its
  induction its with
  | nil => intro s e he; simp [updItems] at he
  | cons it rest ih =>
    intro s e he
    simp only [updItems] at he
    split at he
    · rw [List.mem_append] at he
      rcases he with he | he
      · exact ih s e he
      · have := hc_events_level _ env _ e he
        rwa [updItems_level] at this
    · split at he
      · rw [List.mem_append] at he
        rcases he with he | he
        · exact ih s e he
        · rcases List.mem_singleton.mp he with rfl
          simp [notifyUI, eventLevel, updItems_level]
      · exact ih s e he

theorem updItems_score_mono (env : Env) (py : ℚ) :
    ∀ (its : List Item) (s : GameEngine),
      s.score ≤ (updItems env py its s).2.1.score := by
  intro its
  induction its with
  | nil => intro s; exact le_refl _
  | cons it rest ih =>
    intro s
    simp only [updItems]
    split
    · exact le_trans (ih s) (hc_score_le _ env _)
    · split
      · exact ih s
      · exact ih s

theorem updItems_particles_length (env : Env) (py : ℚ) :
    ∀ (its : List Item) (s : GameEngine),
      (updItems env py its s).2.1.particles.length = s.particles.length := by
  intro its
  induction its with
  | nil => intro s; rfl
  | cons it rest ih =>
    intro s
    simp only [updItems]
    split
    · rw [show ∀ a b c, (Prod.mk a (Prod.mk b c)).2.1 = b from fun _ _ _ => rfl]
      rw [hc_particles_length, ih s]
    · split
      · simpa using ih s
      · simpa using ih s

theorem update_not_playing (s : GameEngine) (env : Env) (h : s.state ≠ "PLAYING") :
    s.update env = (s, []) := by
  unfold GameEngine.update
  rw [if_pos h]

theorem update_level (s : GameEngine) (env : Env) :
    (s.update env).1.level = s.level := by
  by_cases h : s.state ≠ "PLAYING"
  · rw [update_not_playing s env h]
  · by_cases hs : s.spawnTimer + 1 > s.spawnInterval <;>
      simp [GameEngine.update, h, hs, updItems_level]

theorem update_events_level (s : GameEngine) (env : Env) :
    ∀ e ∈ (s.update env).2, eventLevel e = s.level := by
  by_cases h : s.state ≠ "PLAYING"
  · rw [update_not_playing s env h]; intro e he; simp at he
  · intro e he
    by_cases hs : s.spawnTimer + 1 > s.spawnInterval <;>
      · simp only [GameEngine.update, h, hs, if_true, if_false, ite_true, ite_false,
          reduceIte, if_neg, not_false_eq_true, not_true, not_not] at he
        have h2 := updItems_events_level env _ _ _ e (by exact he)
        simpa using h2

theorem update_score_mono (s : GameEngine) (env : Env) :
    s.score ≤ (s.update env).1.score := by
  by_cases h : s.state ≠ "PLAYING"
  · rw [update_not_playing s env h]
  · by_cases hs : s.spawnTimer + 1 > s.spawnInterval <;>
      · simp only [GameEngine.update, h, hs, if_true, if_false, ite_true, ite_false,
          reduceIte, if_neg, not_false_eq_true, not_true, not_not]
        refine le_trans ?_ (updItems_score_mono env _ _ _)
        exact le_of_eq rfl

theorem update_particles_length (s : GameEngine) (env : Env) :
    (s.update env).1.particles.length = s.particles.length := by
  by_cases h : s.state ≠ "PLAYING"
  · rw [update_not_playing s env h]
  · by_cases hs : s.spawnTimer + 1 > s.spawnInterval <;>
      simp [GameEngine.update, h, hs, updItems_particles_length]

theorem updItems_allMiss (env : Env) (py : ℚ) :
    ∀ (its : List Item) (s : GameEngine),
      (∀ it ∈ its, ¬(|it.y + it.speed - py| < 50 ∧ |it.x - s.playerX| < 50)
        ∧ it.y + it.speed > s.canvasH) →
      (updItems env py its s).1 = []
      ∧ (its = [] → (updItems env py its s).2.1 = s)
      ∧ (its ≠ [] → (updItems env py its s).2.1 = { s with combo := 0 }) := by
  intro its
  induction its with
  | nil => intro s _; exact ⟨rfl, fun _ => rfl, fun hne => absurd rfl hne⟩
  | cons it rest ih =>
    intro s hmiss
    obtain ⟨h1, ihnil, ihcons⟩ := ih s fun x hx => hmiss x (List.mem_cons_of_mem _ hx)
    have hit := hmiss it (List.mem_cons_self _ _)
    have h2 : (updItems env py rest s).2.1 = s ∨
        (updItems env py rest s).2.1 = { s with combo := 0 } := by
      by_cases hr : rest = []
      · exact Or.inl (ihnil hr)
      · exact Or.inr (ihcons hr)
    rcases h2 with h2 | h2 <;>
      · simp only [updItems, h1, h2]
        rw [if_neg (by simpa using hit.1), if_pos (by simpa using hit.2)]
        exact ⟨rfl, fun hc => absurd hc (List.cons_ne_nil _ _), fun _ => rfl⟩

theorem setPose_level (s : GameEngine) (l : String) :
    (s.setPose l).level = s.level := by
  simp only [GameEngine.setPose]
  repeat' split
  all_goals rfl

theorem setPose_score (s : GameEngine) (l : String) :
    (s.setPose l).score = s.score := by
  simp only [GameEngine.setPose]
  repeat' split
  all_goals rfl

theorem setPose_particles (s : GameEngine) (l : String) :
    (s.setPose l).particles = s.particles := by
  simp only [GameEngine.setPose]
  repeat' split
  all_goals rfl

theorem applyOp_level (o : Op) (s : GameEngine) (h : s.level = 1) :
    (applyOp o s).1.level = 1 ∧ ∀ e ∈ (applyOp o s).2, eventLevel e = 1 := by
  cases o with
  | start =>
    refine ⟨rfl, ?_⟩
    intro e he
    rcases List.mem_singleton.mp he with rfl
    rfl
  | update env =>
    refine ⟨?_, ?_⟩
    · show (s.update env).1.level = 1
      rw [update_level, h]
    · intro e he
      have h3 := update_events_level s env e he
      rw [h3, h]
  | setPose l =>
    refine ⟨?_, ?_⟩
    · show (s.setPose l).level = 1
      rw [setPose_level, h]
    · intro e he
      simp [applyOp] at he
  | draw =>
    exact ⟨h, by intro e he; simp [applyOp] at he⟩

theorem runOps_level (ops : List Op) :
    ∀ s : GameEngine, s.level = 1 →
      (runOps ops s).1.level = 1 ∧ ∀ e ∈ (runOps ops s).2, eventLevel e = 1 := by
  induction ops with
  | nil => intro s h; exact ⟨h, by intro e he; simp [runOps] at he⟩
  | cons o os ih =>
    intro s h
    obtain ⟨h1, h2⟩ := applyOp_level o s h
    obtain ⟨h3, h4⟩ := ih (applyOp o s).1 h1
    refine ⟨h3, ?_⟩
    intro e he
    simp only [runOps, List.mem_append] at he
    rcases he with he | he
    · exact h2 e he
    · exact h4 e he

theorem applyOp_particles_length (o : Op) (s : GameEngine) :
    (applyOp o s).1.particles.length = s.particles.length := by
  cases o with
  | start => simp [applyOp, GameEngine.start]
  | update env => exact update_particles_length s env
  | setPose l => simp [applyOp, setPose_particles]
  | draw => rfl

theorem runOps_particles_length (ops : List Op) :
    ∀ s : GameEngine, (runOps ops s).1.particles.length = s.particles.length := by
  induction ops with
  | nil => intro s; rfl
  | cons o os ih =>
    intro s
    calc (runOps (o :: os) s).1.particles.length
        = (runOps os (applyOp o s).1).1.particles.length := rfl
      _ = (applyOp o s).1.particles.length := ih _
      _ = s.particles.length := applyOp_particles_length o s

theorem activeCount_le_length (ps : List Particle) : activeCount ps ≤ ps.length :=
  List.countP_le_length _

theorem runOps_score_mono (ops : List Op) :
    ∀ s : GameEngine, (∀ o ∈ ops, o.isStart = false) →
      s.score ≤ (runOps ops s).1.score := by
  induction ops with
  | nil => intro s _; exact le_refl _
  | cons o os ih =>
    intro s hns
    have h1 : s.score ≤ (applyOp o s).1.score := by
      cases o with
      | start => simpa [Op.isStart] using hns Op.start (List.mem_cons_self _ _)
      | update env => exact update_score_mono s env
      | setPose l => exact le_of_eq (setPose_score s l).symm
      | draw => exact le_refl _
    exact le_trans h1 (ih (applyOp o s).1 fun x hx => hns x (List.mem_cons_of_mem _ hx))

theorem runHits_combo (env : Env) :
    ∀ (its : List Item) (s : GameEngine), (∀ x ∈ its, x.type ≠ "bomb") →
      (runHits env its s).combo = s.combo + its.length := by
  intro its
  induction its with
  | nil => intro s _; simp [runHits]
  | cons it rest ih =>
    intro s hall
    have hhd := hall it (List.mem_cons_self _ _)
    rw [runHits, ih _ fun x hx => hall x (List.mem_cons_of_mem _ hx), hc_combo]
    simp [hhd]
    omega

theorem runHits_score_aux (env : Env) (s : GameEngine) (its : List Item) (it : Item)
    (h0 : s.combo = 0) (hall : ∀ x ∈ its, x.type ≠ "bomb") (hit : it.type ≠ "bomb") :
    ((runHits env its s).handleCollision env it).1.score =
      (runHits env its s).score + it.score * (1 + (its.length + 1) / 10) := by
  rw [hc_score, if_neg hit, runHits_combo env its s hall, h0, Nat.zero_add]

/-- C8: `start()` is idempotent: from any engine state, calling `start()`
twice in a row yields a state identical to calling it once; each call resets
score, life, level, combo, the item list, all particles (to inactive) and
baseSpeed, re-enters PLAYING, and notifies the score-change listener once
with the reset values (0, 3, 1, 0). -/
theorem C8_start_idempotent (s : GameEngine) :
    ((s.start).1.start).1 = (s.start).1
    ∧ (s.start).2 = [Event.scoreChange 0 3 1 0]
    ∧ (s.start).1.state = "PLAYING"
    ∧ (s.start).1.score = 0
    ∧ (s.start).1.life = 3
    ∧ (s.start).1.level = 1
    ∧ (s.start).1.combo = 0
    ∧ (s.start).1.items = []
    ∧ (s.start).1.baseSpeed = 6
    ∧ ∀ p ∈ (s.start).1.particles, p.active = false := by
  refine ⟨?_, rfl, rfl, rfl, rfl, rfl, rfl, rfl, rfl, ?_⟩
  · simp only [GameEngine.start]
    rw [GameEngine.mk.injEq]
    refine ⟨rfl, rfl, rfl, rfl, rfl, rfl, rfl, rfl, rfl, rfl, rfl, rfl, rfl, rfl, rfl,
      rfl, ?_, rfl, rfl, rfl⟩
    exact deactivate_map_idem s.particles
  · intro p hp
    simp only [GameEngine.start] at hp
    rcases List.mem_map.mp hp with ⟨q, _, rfl⟩
    rfl

/-- C10: in the richer engine, `level` is never modified after construction
or `start()`: for every sequence of `start()`, `setPose()`, `update()` and
`draw()` calls from a constructed engine, `level` equals 1, and every
score-change and game-end notification reports level 1. -/
theorem C10_level_constant (w h : ℚ) (ops : List Op) :
    (runOps ops (mkGameEngine.init w h)).1.level = 1
    ∧ ∀ e ∈ (runOps ops (mkGameEngine.init w h)).2, eventLevel e = 1 :=
  runOps_level ops _ rfl

/-- C7: the particle pool holds exactly 100 slots allocated at construction
and is never resized: after every sequence of external operations the pool
still has 100 slots, the count of active particles never exceeds 100, and a
further `spawnExplosion` keeps the pool at 100 slots. -/
theorem C7_particle_pool_fixed (w h : ℚ) (ops : List Op) (env : Env) (x y : ℚ)
    (c : String) :
    mkGameEngine.particles.length = 100
    ∧ (runOps ops (mkGameEngine.init w h)).1.particles.length = 100
    ∧ activeCount (runOps ops (mkGameEngine.init w h)).1.particles ≤ 100
    ∧ ((runOps ops (mkGameEngine.init w h)).1.spawnExplosion env x y c).particles.length
        = 100 := by
  have hlen : (runOps ops (mkGameEngine.init w h)).1.particles.length = 100 := by
    rw [runOps_particles_length]
    simp [mkGameEngine, GameEngine.init]
  refine ⟨by simp [mkGameEngine], hlen, ?_, ?_⟩
  · exact le_of_le_of_eq (activeCount_le_length _) hlen
  · rw [se_particles_length, hlen]

/-- C6: `score` is monotonically non-decreasing under every sequence of
`update()`, `setPose()` and `draw()` calls (any operation sequence that
contains no `start()` reset). -/
theorem C6_score_monotone (s : GameEngine) (ops : List Op)
    (h : ∀ o ∈ ops, o.isStart = false) :
    s.score ≤ (runOps ops s).1.score :=
  runOps_score_mono ops s h

/-- Witness for C6: a concrete start-free operation sequence on a freshly
started engine, with the hypothesis checked by evaluation. -/
theorem C6_score_monotone_witness :
    (∀ o ∈ opsC6, o.isStart = false) ∧ sP.score ≤ (runOps opsC6 sP).1.score :=
  ⟨by decide, C6_score_monotone sP opsC6 (by decide)⟩

/-- C5: after `k` consecutive non-hazard hits from combo 0 with no
intervening miss or hazard hit, the combo equals `k` and the score increment
applied on the `k`-th hit is the item's score value times `1 + ⌊k/10⌋`; a
single hazard hit, or `resetCombo` (the miss handler), sets combo to 0 from
any engine state `t`, regardless of `t`'s (possibly nonzero) combo. -/
theorem C5_combo_multiplier (env : Env) (s t : GameEngine) (its : List Item)
    (it bomb : Item) (h0 : s.combo = 0) (hall : ∀ x ∈ its, x.type ≠ "bomb")
    (hit : it.type ≠ "bomb") (hbomb : bomb.type = "bomb") :
    (runHits env its s).combo = its.length
    ∧ ((runHits env its s).handleCollision env it).1.score =
        (runHits env its s).score + it.score * (1 + (its.length + 1) / 10)
    ∧ ((runHits env its s).handleCollision env it).1.combo = its.length + 1
    ∧ (t.handleCollision env bomb).1.combo = 0
    ∧ (t.resetCombo).1.combo = 0 := by
  refine ⟨?_, runHits_score_aux env s its it h0 hall hit, ?_, ?_, rfl⟩
  · rw [runHits_combo env its s hall, h0, Nat.zero_add]
  · rw [hc_combo, if_neg hit, runHits_combo env its s hall, h0, Nat.zero_add]
  · rw [hc_combo, if_pos hbomb]

/-- Witness for C5: nine apples caught from a fresh start (combo 0), then a
tenth apple whose increment is 100 × (1 + ⌊10/10⌋) = 200; a bomb hit and a
combo reset applied at an engine state with combo 7 both zero the combo. -/
theorem C5_combo_multiplier_witness :
    sC9.combo = 7
    ∧ (runHits env0 (List.replicate 9 appleItem) sP).combo
        = (List.replicate 9 appleItem).length
    ∧ ((runHits env0 (List.replicate 9 appleItem) sP).handleCollision env0 appleItem).1.score
        = (runHits env0 (List.replicate 9 appleItem) sP).score
          + appleItem.score * (1 + ((List.replicate 9 appleItem).length + 1) / 10)
    ∧ ((runHits env0 (List.replicate 9 appleItem) sP).handleCollision env0 appleItem).1.combo
        = (List.replicate 9 appleItem).length + 1
    ∧ (sC9.handleCollision env0 bombItem).1.combo = 0
    ∧ (sC9.resetCombo).1.combo = 0 :=
  have h := C5_combo_multiplier env0 sP sC9 (List.replicate 9 appleItem) appleItem bombItem
    (by decide) (by decide) (by decide) (by decide)
  ⟨by decide, h.1, h.2.1, h.2.2.1, h.2.2.2.1, h.2.2.2.2⟩

/-- C9: under the richer engine's miss policy, when every item in the field
leaves the canvas on this `update()` without colliding with the player (and
the spawn timer does not fire), all such items are removed in that same
`update()` call and the combo is set to 0, regardless of its previous
value. -/
theorem C9_miss_resets_combo (env : Env) (s : GameEngine)
    (hplay : s.state = "PLAYING") (hne : s.items ≠ [])
    (hspawn : ¬s.spawnTimer + 1 > s.spawnInterval)
    (hmiss : ∀ it ∈ s.items,
      ¬(|it.y + it.speed - s.canvasH * (17/20 : ℚ)| < 50 ∧ |it.x - movedX s| < 50)
      ∧ it.y + it.speed > s.canvasH) :
    (s.update env).1.items = [] ∧ (s.update env).1.combo = 0 := by
  have hplay2 : ¬s.state ≠ "PLAYING" := by simp [hplay]
  obtain ⟨hA, hB, hC⟩ := updItems_allMiss env (s.canvasH * (17/20 : ℚ)) s.items
    { s with playerX := s.playerX + (s.targetX - s.playerX) * (2/5 : ℚ),
             spawnTimer := s.spawnTimer + 1 } hmiss
  have hCC := hC hne
  constructor <;> simp [GameEngine.update, hplay2, hspawn, hA, hCC]

/-- C1 counterexample: from a freshly started engine (life 3) whose field
holds four bombs that all collide with the player in one `update()` call
(N = 4 hazard hits), the code leaves life at −1 — not clamped at 0 — and
fires the game-ended notification twice, not once. -/
theorem C1_counterexample :
    sC1.state = "PLAYING" ∧ sC1.life = 3 ∧ sC1.items.length = 4
    ∧ (∀ it ∈ sC1.items, it.type = "bomb")
    ∧ (sC1.update env0).1.life = -1
    ∧ countGameEnd (sC1.update env0).2 = 2 := by
  with_unfolding_all decide

/-- C1 amended: `update()` outside PLAYING is a no-op (so life stops
decreasing across update() calls once the first crossing switches the state
to GAME_OVER); each hazard collision decrements life by exactly 1, sets
GAME_OVER exactly when the decremented life is ≤ 0, and fires `onGameEnd`
exactly at that collision; a non-hazard collision leaves life unchanged and
fires `onGameEnd` only in the degenerate case that life was already ≤ 0.
Within a single `update()` call, further hazard collisions processed after
the crossing each decrement life below 0 and refire `onGameEnd`. -/
theorem C1_amended (env : Env) (s : GameEngine) (it : Item) :
    (s.state ≠ "PLAYING" → s.update env = (s, []))
    ∧ (it.type = "bomb" →
        (s.handleCollision env it).1.life = s.life - 1
        ∧ (s.handleCollision env it).1.state
            = (if s.life - 1 ≤ 0 then "GAME_OVER" else s.state)
        ∧ countGameEnd (s.handleCollision env it).2
            = (if s.life - 1 ≤ 0 then 1 else 0))
    ∧ (it.type ≠ "bomb" →
        (s.handleCollision env it).1.life = s.life
        ∧ countGameEnd (s.handleCollision env it).2
            = (if s.life ≤ 0 then 1 else 0)) := by
  refine ⟨update_not_playing s env, fun hb => ?_, fun hb => ?_⟩
  · refine ⟨?_, ?_, ?_⟩
    · rw [hc_life, if_pos hb]
    · rw [hc_state, if_pos hb]
    · rw [hc_countGameEnd, if_pos hb]
  · refine ⟨?_, ?_⟩
    · rw [hc_life, if_neg hb]
    · rw [hc_countGameEnd, if_neg hb]

/-- Witness for C1 amended: `update()` on a READY engine is a no-op; on the
started engine a bomb collision decrements life from 3 to 2 without a game
end, and an apple collision leaves life unchanged. -/
theorem C1_amended_witness :
    sREADY.update env0 = (sREADY, [])
    ∧ (sC1.handleCollision env0 bombItem).1.life = sC1.life - 1
    ∧ countGameEnd (sC1.handleCollision env0 bombItem).2
        = (if sC1.life - 1 ≤ 0 then 1 else 0)
    ∧ (sC1.handleCollision env0 appleItem).1.life = sC1.life :=
  ⟨(C1_amended env0 sREADY bombItem).1 (by decide),
   ((C1_amended env0 sC1 bombItem).2.1 (by decide)).1,
   ((C1_amended env0 sC1 bombItem).2.1 (by decide)).2.2,
   ((C1_amended env0 sC1 appleItem).2.2 (by decide)).1⟩

/-- C2: a particle-burst request of `m ≥ 1` particles activates exactly
`min m (C − a)` new particles, where `a` is the number of active slots and
`C` the pool capacity; `spawnExplosion` is this burst at the source's per
event cap `m = 15`; with an empty 100-slot pool a request for 95 activates
95, and an immediately following request for 10 activates only 5 more. -/
theorem C2_particle_burst (env : Env) (x y : ℚ) (c : String) (m : ℕ)
    (ps : List Particle) (rix : ℕ) (s : GameEngine) (hm : 1 ≤ m) :
    activeCount (spawnBurst env x y c m ps rix).1
      = activeCount ps + min m (inactiveCount ps)
    ∧ activeCount (s.spawnExplosion env x y c).particles
      = activeCount s.particles + min 15 (inactiveCount s.particles)
    ∧ activeCount (spawnBurst env0 0 0 "#FFF" 95 (List.replicate 100 mkParticle) 0).1 = 95
    ∧ activeCount
        (spawnBurst env0 0 0 "#FFF" 10
          (spawnBurst env0 0 0 "#FFF" 95 (List.replicate 100 mkParticle) 0).1
          (spawnBurst env0 0 0 "#FFF" 95 (List.replicate 100 mkParticle) 0).2).1
      = activeCount (spawnBurst env0 0 0 "#FFF" 95 (List.replicate 100 mkParticle) 0).1
        + 5 := by
  refine ⟨?_, ?_, ?_, ?_⟩
  · have h := spawnBurstAux_activeCount env x y c m ps 0 rix (by omega)
    simpa [spawnBurst] using h
  · have h := spawnBurstAux_activeCount env x y c 15 s.particles 0 s.rix (by omega)
    simp only [GameEngine.spawnExplosion]
    simpa [spawnBurst] using h
  · with_unfolding_all decide
  · with_unfolding_all decide

/-- Witness for C2: the burst law applied at a request of 95 particles on
the freshly allocated (all-inactive) 100-slot pool. -/
theorem C2_particle_burst_witness :
    activeCount (spawnBurst env0 0 0 "#FFF" 95 (List.replicate 100 mkParticle) 0).1
      = activeCount (List.replicate 100 mkParticle)
        + min 95 (inactiveCount (List.replicate 100 mkParticle)) :=
  (C2_particle_burst env0 0 0 "#FFF" 95 (List.replicate 100 mkParticle) 0 sP
    (by omega)).1

/-- C3 counterexample: in the richer engine, matching is case-sensitive: on
a freshly started PLAYING engine the lowercase label "left" leaves the
target unchanged at the center (200), instead of setting it to
laneLeft = laneWidth × (0 + 0.5) as the claim requires. -/
theorem C3_counterexample :
    sP.state = "PLAYING"
    ∧ sP.setPose "left" = sP
    ∧ sP.targetX = 200
    ∧ (sP.setPose "left").targetX ≠ sP.canvasW / 3 * ((0 : ℚ) + 1/2) := by
  with_unfolding_all decide

/-- C3 amended: the richer engine's `setPose` matches case-sensitively
against "Left"/"Center"/"Right" and sets targetX = laneWidth × (lane + 0.5),
leaving the target untouched on any other label; case-insensitive matching
exists only in the simpler engine, which stores the discrete lane index
(drawn at x = laneWidth × (lane + 0.5)); under the simpler engine the label
stream ["left","center","LEFT","bogus","right"] yields the lane sequence
0, 1, 0, 0 (unchanged on "bogus"), 2. -/
theorem C3_amended :
    (∀ s : GameEngine, s.state = "PLAYING" →
      (s.setPose "Left").targetX = s.canvasW / 3 * ((0 : ℚ) + 1/2)
      ∧ (s.setPose "Center").targetX = s.canvasW / 3 * ((1 : ℚ) + 1/2)
      ∧ (s.setPose "Right").targetX = s.canvasW / 3 * ((2 : ℚ) + 1/2)
      ∧ ∀ l : String, l ≠ "Left" → l ≠ "Center" → l ≠ "Right" → s.setPose l = s)
    ∧ (∀ (t : Simple.GameEngine) (l : String), t.state = "PLAYING" →
      (l.toUpper = "LEFT" → t.setPose l = { t with playerLane := 0 })
      ∧ (l.toUpper = "CENTER" → t.setPose l = { t with playerLane := 1 })
      ∧ (l.toUpper = "RIGHT" → t.setPose l = { t with playerLane := 2 })
      ∧ (l.toUpper ≠ "LEFT" → l.toUpper ≠ "CENTER" → l.toUpper ≠ "RIGHT" →
          t.setPose l = t))
    ∧ Simple.laneSeq tP ["left", "center", "LEFT", "bogus", "right"] = [0, 1, 0, 0, 2]
    ∧ ∀ (w : ℚ) (lane : ℕ), Simple.playerDrawX w lane = w / 3 * ((lane : ℚ) + 1/2) := by
  refine ⟨?_, ?_, ?_, ?_⟩
  · intro s h
    have hnp : ¬s.state ≠ "PLAYING" := by simp [h]
    refine ⟨?_, ?_, ?_, ?_⟩
    · simp [GameEngine.setPose, hnp]
    · simp [GameEngine.setPose, hnp]
      exact Or.inl (by norm_num)
    · simp [GameEngine.setPose, hnp]
      exact Or.inl (by norm_num)
    · intro l h1 h2 h3
      simp [GameEngine.setPose, hnp, h1, h2, h3]
  · intro t l ht
    have hnp : ¬t.state ≠ "PLAYING" := by simp [ht]
    refine ⟨fun hup => ?_, fun hup => ?_, fun hup => ?_, fun h1 h2 h3 => ?_⟩
    · simp [Simple.GameEngine.setPose, hnp, hup]
    · simp [Simple.GameEngine.setPose, hnp, hup]
    · simp [Simple.GameEngine.setPose, hnp, hup]
    · simp [Simple.GameEngine.setPose, hnp, h1, h2, h3]
  · with_unfolding_all decide
  · intro w lane
    unfold Simple.playerDrawX
    ring

/-- Witness for C3 amended: the exact label "Left" moves the started richer
engine's target to the left lane, and the lowercase "left" moves the simpler
engine to lane 0. -/
theorem C3_amended_witness :
    (sP.setPose "Left").targetX = sP.canvasW / 3 * ((0 : ℚ) + 1/2)
    ∧ tP.setPose "left" = { tP with playerLane := 0 } :=
  ⟨(C3_amended.1 sP (by decide)).1,
   ((C3_amended.2.1 tP "left" (by decide)).1 (by with_unfolding_all decide))⟩

/-- C4 counterexample: catching an apple on a freshly started engine takes
the score from 0 to 100 — crossing no multiple of 1000 (both scores lie in
the same thousand-block) — yet baseSpeed is incremented from 6 to 6.05,
because the code's condition is `score % 1000 < 200`, not a boundary
crossing. -/
theorem C4_counterexample :
    (sP.handleCollision env0 appleItem).1.score / 1000 = sP.score / 1000
    ∧ (sP.handleCollision env0 appleItem).1.baseSpeed ≠ sP.baseSpeed
    ∧ (sP.handleCollision env0 appleItem).1.baseSpeed = sP.baseSpeed + (1/20 : ℚ) := by
  with_unfolding_all decide

/-- C4 amended: during PLAYING, baseSpeed is incremented by 0.05 on a
non-hazard hit exactly when the post-hit score satisfies
`score % 1000 < 200` (an approximation of the 1000-point ramp that also
fires inside the first 200 points of every thousand-block), and never on a
hazard hit. -/
theorem C4_amended (env : Env) (s : GameEngine) (it : Item) :
    (it.type ≠ "bomb" →
      (s.handleCollision env it).1.baseSpeed =
        (if (s.score + it.score * (1 + (s.combo + 1) / 10)) % 1000 < 200
         then s.baseSpeed + (1/20 : ℚ) else s.baseSpeed))
    ∧ (it.type = "bomb" → (s.handleCollision env it).1.baseSpeed = s.baseSpeed) := by
  constructor <;> intro hb
  · rw [hc_baseSpeed, if_neg hb]
  · rw [hc_baseSpeed, if_pos hb]

/-- Witness for C4 amended: the ramp condition evaluated for an apple hit
and a bomb hit on the freshly started engine. -/
theorem C4_amended_witness :
    (sP.handleCollision env0 appleItem).1.baseSpeed =
      (if (sP.score + appleItem.score * (1 + (sP.combo + 1) / 10)) % 1000 < 200
       then sP.baseSpeed + (1/20 : ℚ) else sP.baseSpeed)
    ∧ (sP.handleCollision env0 bombItem).1.baseSpeed = sP.baseSpeed :=
  ⟨(C4_amended env0 sP appleItem).1 (by decide),
   (C4_amended env0 sP bombItem).2 (by decide)⟩

/-- Witness for C9: a started engine with combo 7 and one item at y = 400
moving by 6 (leaving the 400-high canvas without touching the collision
window) — after one `update()` the item list is empty and combo is 0. -/
theorem C9_miss_resets_combo_witness :
    sC9.combo = 7 ∧ (sC9.update env0).1.items = [] ∧ (sC9.update env0).1.combo = 0 :=
  ⟨by decide,
   C9_miss_resets_combo env0 sC9 (by decide) (by decide) (by decide)
     (by with_unfolding_all decide)⟩
